import Mathlib

/-!
Verification development for the llm-rag-comparator repository.

The Python source of the repository is shallowly embedded in Lean:
pure functions become Lean functions, the mutable citation counter
becomes explicit state passing, Python exceptions become the
Except monad, and the external collaborators (retriever, language
model, RAGAS metric backend) become function-valued parameters.
Floats that only ever flow through order comparisons are modelled
as rationals; a NaN raw score is modelled by a dedicated
constructor, mirroring the source test "score_value == score_value".
-/

namespace RagComparator

/-! ## Python string primitives

Python strings are modelled as Lean String values; the Python
string methods the source uses are given explicit executable
models over the underlying character list (the builtin Lean
counterparts such as String.trim are iterator-based and do not
reduce inside the kernel). -/

/-- Model of Python str.strip(): removes leading and trailing
whitespace characters. -/
def pyStrip (s : String) : String :=
  String.mk (((s.data.dropWhile Char.isWhitespace).reverse.dropWhile
    Char.isWhitespace).reverse)

/-- Model of Python s.endswith on a one-character suffix: true
when the last character is that character. -/
def endsWithChar (c : Char) (s : String) : Bool :=
  s.data.getLast? = some c

/-- Model of Python s[:-1]: the string without its last character. -/
def dropLastChar (s : String) : String :=
  String.mk s.data.dropLast

/-- Model of Python s.split(c)[-1]: the segment after the last
occurrence of the character (the whole string when absent). -/
def afterLastChar (c : Char) (s : String) : String :=
  String.mk ((s.data.reverse.takeWhile (fun a => a ≠ c)).reverse)

/-! ## Python runtime values

Model of the dynamically typed values that flow through the
services' response-extraction code: a plain string, an object with
a "content" attribute (AIMessage), a dict, or any other object
(whose only use is its str() rendering, kept as a payload). -/

inductive PyVal where
  | str (s : String)
  | aiMessage (content : String)
  | dict (entries : List (String × PyVal))
  | other (repr : String)

/-- Model of Python "key in d" plus "d[key]" on a dict: first
matching key wins (Python dicts have unique keys). -/
def lookupKey : List (String × PyVal) → String → Option PyVal
  | [], _ => none
  | (k, v) :: rest, key => if k = key then some v else lookupKey rest key

/-! ## Text extraction (rag_service.py and llm_service.py)

Both services extract answer text from a raw model response with
the same priority chain; RAGService adds a recursive unwrap of a
dict shaped as a result wrapper. The Python builtin str() used in
the final fallback is an external function, passed in as the
parameter pystr; both embeddings share it. A dict value returned
for the answer, content or text keys is returned as-is (the Python
code returns response[key] whatever its type), so the embedded
extraction returns a PyVal. -/

/-- Fallthrough of RAGService._extract_text after the result key
check: the dict keys answer, content, text in order, then str().
LLMService._extract_text reaches the same chain directly. -/
def dictFallback (pystr : PyVal → String) (es : List (String × PyVal)) : PyVal :=
  match lookupKey es "answer" with
  | some v => v
  | none =>
    match lookupKey es "content" with
    | some v => v
    | none =>
      match lookupKey es "text" with
      | some v => v
      | none => .str (pystr (.dict es))

namespace RAGService

/-- Embedding of RAGService._extract_text: string, content
attribute, dict result key (recursive), dict answer, content, text
keys, str() fallback. -/
def extractText (pystr : PyVal → String) : PyVal → PyVal
  | .str s => .str s
  | .aiMessage c => .str c
  | .dict es =>
    match h : lookupKey es "result" with
    | some v => extractText pystr v
    | none => dictFallback pystr es
  | .other r => .str (pystr (.other r))
termination_by v => sizeOf v
decreasing_by
  have aux : ∀ (l : List (String × PyVal)) (key : String) (w : PyVal),
      lookupKey l key = some w → sizeOf w < sizeOf (PyVal.dict l) := by
    intro l key w hw
    induction l with
    | nil => simp [lookupKey] at hw
    | cons p rest ih =>
      obtain ⟨k, u⟩ := p
      simp only [lookupKey] at hw
      split at hw
      · cases hw
        simp only [PyVal.dict.sizeOf_spec, List.cons.sizeOf_spec, Prod.mk.sizeOf_spec]
        omega
      · have := ih hw
        simp only [PyVal.dict.sizeOf_spec, List.cons.sizeOf_spec, Prod.mk.sizeOf_spec] at *
        omega
  exact aux es "result" v h

end RAGService

namespace LLMService

/-- Embedding of LLMService._extract_text: string, content
attribute, dict answer, content, text keys, str() fallback; no
result key handling. -/
def extractText (pystr : PyVal → String) : PyVal → PyVal
  | .str s => .str s
  | .aiMessage c => .str c
  | .dict es => dictFallback pystr es
  | .other r => .str (pystr (.other r))

end LLMService

/-! ## CitationService (citation_service.py)

The per-instance mutable citation_counter becomes an explicit
natural-number state threaded through create_citation. The
formatted response dict with answer and sources keys becomes a
pair; the citation summary dict becomes a structure whose optional
total_files field records whether that key is present. -/

/-- Metadata dict of a retrieved document, as CitationService reads
it: the optional source path and the optional zero-based page. -/
structure DocMeta where
  source : Option String
  page : Option Int

/-- A retrieved evidence chunk: page_content plus an optional
metadata dict (absent metadata models a document object without a
metadata attribute). -/
structure Document where
  page_content : String
  metadata : Option DocMeta

/-- Embedding of the Citation dataclass. -/
structure Citation where
  number : Nat
  filename : String
  page : Int
  chunk_content : String
deriving DecidableEq

namespace CitationService

/-- Model of source_path.split on slash, last element, then split
on backslash, last element, as in _extract_filename. -/
def lastPathComponent (path : String) : String :=
  afterLastChar '\\' (afterLastChar '/' path)

/-- Embedding of CitationService._extract_filename. In the typed
model the broad except branch (returning fonte_desconhecida.pdf)
is unreachable: it only fires in Python when the metadata values
have unexpected types. -/
def extract_filename (document : Document) : String :=
  match document.metadata with
  | some m =>
    match m.source with
    | some path => lastPathComponent path
    | none => "documento_desconhecido.pdf"
  | none => "documento_desconhecido.pdf"

/-- Embedding of CitationService._extract_page_number: metadata
page plus one, else 1; the except branch is likewise unreachable
in the typed model. -/
def extract_page_number (document : Document) : Int :=
  match document.metadata with
  | some m =>
    match m.page with
    | some p => p + 1
    | none => 1
  | none => 1

/-- Embedding of CitationService.reset_counter: the counter state
after a reset. -/
def reset_counter : Nat := 0

/-- Embedding of CitationService.create_citation: increments the
counter state and returns the new Citation together with the new
counter. -/
def create_citation (counter : Nat) (source_document : Document)
    (chunk_content : String) : Citation × Nat :=
  let c := counter + 1
  (⟨c, extract_filename source_document, extract_page_number source_document,
    chunk_content⟩, c)

/-- Runs create_citation once per (document, excerpt) pair in
order, threading the counter state, and returns the citations in
call order with the final counter. -/
def create_citations (counter : Nat) : List (Document × String) → List Citation × Nat
  | [] => ([], counter)
  | (d, c) :: rest =>
    let step := create_citation counter d c
    let tail := create_citations step.2 rest
    (step.1 :: tail.1, tail.2)

/-- Embedding of CitationService._add_citation_markers: appends
bracketed markers, moved before a trailing period when present. -/
def add_citation_markers (response : String) (citations : List Citation) : String :=
  let citation_markers := citations.map (fun c => "[" ++ toString c.number ++ "]")
  if citation_markers.isEmpty then response
  else
    let markers_text := " " ++ String.intercalate " " citation_markers
    if endsWithChar '.' response then dropLastChar response ++ markers_text ++ "."
    else response ++ markers_text

/-- Embedding of CitationService._format_sources_list. -/
def format_sources_list (citations : List Citation) : String :=
  if citations.isEmpty then "Nenhuma fonte encontrada."
  else
    String.intercalate "\n"
      ("📚 Fontes utilizadas:" ::
        citations.map (fun c =>
          "[" ++ toString c.number ++ "] " ++ c.filename ++ " - Página " ++ toString c.page))

/-- Embedding of CitationService.format_response_with_citations:
the returned dict with keys answer and sources becomes a pair
(answer, sources). -/
def format_response_with_citations (response : String) (citations : List Citation) :
    String × String :=
  if citations.isEmpty then (response, "Nenhuma fonte utilizada.")
  else (add_citation_markers response citations, format_sources_list citations)

/-- Result dict of get_citation_summary; total_files is none when
the key is absent from the returned dict. -/
structure CitationSummary where
  total_sources : Nat
  files : List String
  total_files : Option Nat
deriving DecidableEq

/-- Embedding of CitationService.get_citation_summary. Python's
list(set(filenames)) is modelled by dedup, which keeps one copy of
each distinct filename. -/
def get_citation_summary (citations : List Citation) : CitationSummary :=
  if citations.isEmpty then ⟨0, [], none⟩
  else
    let files := (citations.map Citation.filename).dedup
    ⟨citations.length, files, some files.length⟩

end CitationService

/-! ## RAGService answer methods (rag_service.py)

The external collaborators become an environment of functions:
retrieve models self.retriever.invoke (with the
get_relevant_documents fallback collapsed into it — both attempts
sit inside the same outer try block), llmInvoke models
self.llm.invoke, and pystr models the Python builtin str. An
Except.error result of a collaborator models a raised exception.
The answer methods return Except String PyVal: an ok value is what
the Python method returns, an error value would model an exception
propagating out of the method. -/

/-- What the retriever hands back: a list of documents, or (the
malformed case the source guards against) a plain string. -/
inductive RetrieverResult where
  | docs (ds : List Document)
  | str (s : String)

/-- External collaborators of RAGService. -/
structure RAGEnv where
  retrieve : String → Except String RetrieverResult
  llmInvoke : String → Except String PyVal
  pystr : PyVal → String

namespace RAGService

/-- Numbered context block of answer_question: one line per
document, prefixed with its one-based retrieval rank. -/
def numberedContext (docs : List Document) : String :=
  String.join ((docs.enumFrom 1).map
    (fun p => "[" ++ toString p.1 ++ "] " ++ p.2.page_content ++ "\n\n"))

/-- Prompt of answer_question, built from the numbered context and
the question exactly as the source f-string does. -/
def citedPrompt (context question : String) : String :=
  "Baseado nos seguintes documentos, responda a pergunta. \n" ++
  "Cite as fontes usando [1], [2], etc. no final da resposta.\n\n" ++
  "Documentos:\n" ++ context ++ "\n\nPergunta: " ++ question ++
  "\n\nResposta (com citações):"

/-- Prompt of answer_question_simple. -/
def simplePrompt (context question : String) : String :=
  "Baseado no seguinte contexto, responda a pergunta de forma direta e concisa.\n\n" ++
  "Contexto:\n" ++ context ++ "\n\nPergunta: " ++ question ++
  "\n\nResposta:"

/-- The except block shared by both answer methods: any exception
raised inside the try block becomes the visible error string, so
an ok value is always returned to the caller. -/
def absorb : Except String PyVal → Except String PyVal
  | .ok a => .ok a
  | .error e => .ok (PyVal.str ("Erro ao processar pergunta: " ++ e))

/-- Embedding of RAGService.answer_question (cited mode): retrieve,
reject a string-typed retriever result with a visible error string,
build the numbered context and cited prompt, invoke the model,
extract text and return it; an exception at any step falls through
to the outer except block (absorb). -/
def answer_question (env : RAGEnv) (question : String) : Except String PyVal :=
  absorb
    (match env.retrieve question with
     | .error e => .error e
     | .ok (.str _) => .ok (PyVal.str "Erro: formato inválido retornado pelo retriever")
     | .ok (.docs ds) =>
       match env.llmInvoke (citedPrompt (numberedContext ds) question) with
       | .error e => .error e
       | .ok raw => .ok (extractText env.pystr raw))

/-- Embedding of RAGService.answer_question_simple: same retrieval,
un-numbered context joined with blank lines, direct prompt, same
outer except block. A string-typed retriever result is not guarded
here: iterating it inside the try block raises an AttributeError
(each character lacks page_content), which the except block then
absorbs. -/
def answer_question_simple (env : RAGEnv) (question : String) : Except String PyVal :=
  absorb
    (match env.retrieve question with
     | .error e => .error e
     | .ok (.str _) => .error "str object has no attribute page_content"
     | .ok (.docs ds) =>
       match env.llmInvoke
           (simplePrompt (String.intercalate "\n\n" (ds.map Document.page_content)) question) with
       | .error e => .error e
       | .ok raw => .ok (extractText env.pystr raw))

end RAGService

/-! ## RAGEvaluationService (evaluation_service.py)

The RAGAS backend call evaluate(dataset, metrics=[m]) becomes a
function from the metric name and the dataset to a raw score
outcome. The raw outcome distinguishes a numeric value, a NaN
value, a None value, a missing column (also covering a result
object without to_pandas), and an exception raised by the backend;
the source coerces every non-numeric or negative outcome to 0.0
via the test "score_value is not None and score_value ==
score_value and score_value >= 0". Scores are rationals; score
dicts are association lists in insertion order. -/

/-- Dataset handed to the RAGAS evaluate call: question, answer,
optional contexts column, optional ground_truth column. -/
structure RagasDataset where
  question : String
  answer : String
  contexts : Option (List String)
  ground_truth : Option String

/-- Raw outcome of one backend evaluate call for one metric. -/
inductive RawScore where
  | val (q : ℚ)
  | nan
  | noneVal
  | missing
  | err

/-- Backend: metric name and dataset to raw outcome. -/
def MetricBackend : Type := String → RagasDataset → RawScore

/-- Data collected for the RAG path: the simple answer text and
the retrieved context strings. -/
structure RagData where
  answer : String
  contexts : List String

namespace RAGEvaluationService

/-- Requested metric names, in the insertion order of the
self.metrics dict. -/
def metricNames : List String := ["faithfulness", "answer_relevancy", "context_precision"]

/-- The all-zero score dict built by the degenerate-input and
failure branches. -/
def zeroScores : List (String × ℚ) := metricNames.map (fun m => (m, 0))

/-- Validity coercion applied to each raw backend outcome: a
non-negative numeric value passes through unchanged, everything
else (NaN, None, missing column, backend exception, negative
value) becomes 0.0. -/
def coerceScore : RawScore → ℚ
  | .val q => if q ≥ 0 then q else 0
  | _ => 0

/-- Final loop of _evaluate_rag_response: any requested metric
missing from the scores dict is appended as 0.0. -/
def ensureAllMetrics (scores : List (String × ℚ)) : List (String × ℚ) :=
  scores ++ (metricNames.filter (fun m => (scores.lookup m).isNone)).map (fun m => (m, 0))

/-- Embedding of RAGEvaluationService._evaluate_rag_response:
degenerate-answer and degenerate-context validation first, then
one isolated backend call per metric (answer_relevancy,
faithfulness, context_precision — the last with the answer itself
as ground truth), each coerced, then the ensure-all loop. -/
def evaluateRagResponse (backend : MetricBackend) (question : String)
    (rag_data : RagData) : List (String × ℚ) :=
  let answer := pyStrip rag_data.answer
  if answer = "" ∨ answer.length < 10 then zeroScores
  else if rag_data.contexts.isEmpty then zeroScores
  else
    let contexts := (rag_data.contexts.filter
      (fun ctx => ctx ≠ "" ∧ 10 < (pyStrip ctx).length)).map pyStrip
    if contexts.isEmpty then zeroScores
    else
      let ar := coerceScore (backend "answer_relevancy"
        ⟨pyStrip question, answer, some contexts, none⟩)
      let fa := coerceScore (backend "faithfulness"
        ⟨pyStrip question, answer, some contexts, none⟩)
      let cp := coerceScore (backend "context_precision"
        ⟨pyStrip question, answer, some contexts, some answer⟩)
      ensureAllMetrics [("answer_relevancy", ar), ("faithfulness", fa), ("context_precision", cp)]

/-- Embedding of RAGEvaluationService._evaluate_llm_response: only
answer_relevancy is requested, the dataset has no contexts, and the
same degenerate-answer validation and coercion apply. -/
def evaluateLlmResponse (backend : MetricBackend) (question : String)
    (llm_answer : String) : List (String × ℚ) :=
  let answer := pyStrip llm_answer
  if answer = "" ∨ answer.length < 10 then [("answer_relevancy", 0)]
  else
    [("answer_relevancy",
      coerceScore (backend "answer_relevancy" ⟨pyStrip question, answer, none, none⟩))]

/-- Embedding of the faithfulness branch of _interpret_rag_scores. -/
def interpretFaithfulness (score : ℚ) : String :=
  if score ≥ 0.8 then "Excelente fidelidade - resposta baseada nos documentos"
  else if score ≥ 0.6 then "Boa fidelidade - resposta majoritariamente baseada nos documentos"
  else if score ≥ 0.4 then "Fidelidade moderada - resposta parcialmente baseada nos documentos"
  else "Baixa fidelidade - resposta pode conter informações não encontradas nos documentos"

/-- Embedding of the answer_relevancy branch of
_interpret_rag_scores (the same strings are used by
_interpret_llm_scores). -/
def interpretRelevancy (score : ℚ) : String :=
  if score ≥ 0.8 then "Excelente relevância - resposta diretamente relacionada à pergunta"
  else if score ≥ 0.6 then "Boa relevância - resposta relacionada à pergunta"
  else if score ≥ 0.4 then "Relevância moderada - resposta parcialmente relacionada"
  else "Baixa relevância - resposta pode não estar relacionada à pergunta"

/-- Embedding of the context_precision branch of
_interpret_rag_scores. -/
def interpretPrecision (score : ℚ) : String :=
  if score ≥ 0.8 then "Excelente precisão - contexts muito relevantes"
  else if score ≥ 0.6 then "Boa precisão - contexts relevantes"
  else if score ≥ 0.4 then "Precisão moderada - alguns contexts relevantes"
  else "Baixa precisão - poucos contexts relevantes"

/-- Embedding of RAGEvaluationService._interpret_rag_scores: walks
the score dict in order, dispatching on the metric name; entries
with an unrecognised name are dropped. -/
def interpretRagScores (scores : List (String × ℚ)) : List (String × String) :=
  scores.foldl
    (fun interpretation p =>
      if p.1 = "faithfulness" then interpretation ++ [(p.1, interpretFaithfulness p.2)]
      else if p.1 = "answer_relevancy" then interpretation ++ [(p.1, interpretRelevancy p.2)]
      else if p.1 = "context_precision" then interpretation ++ [(p.1, interpretPrecision p.2)]
      else interpretation)
    []

/-- Embedding of RAGEvaluationService._generate_recommendation:
independent rule checks appended in fixed source order, then the
fallback message when no rule fired, joined with the separator. -/
def generateRecommendation (rag_scores llm_scores : List (String × ℚ)) : String :=
  let recsFaith : List String :=
    match rag_scores.lookup "faithfulness" with
    | some faith_score =>
      if faith_score < 0.6 then ["⚠️ Melhorar qualidade dos documentos ou ajustar chunking"]
      else []
    | none => []
  let recsRel : List String :=
    match rag_scores.lookup "answer_relevancy", llm_scores.lookup "answer_relevancy" with
    | some rag_rel, some llm_rel =>
      (if rag_rel < 0.6 then ["📝 Melhorar prompt ou ajustar retriever"] else []) ++
      (if llm_rel > rag_rel + 0.2 then ["🔍 Considerar melhorar estratégia de retrieval"] else [])
    | _, _ => []
  let recsPrec : List String :=
    match rag_scores.lookup "context_precision" with
    | some prec_score =>
      if prec_score < 0.6 then ["🎯 Ajustar estratégia de chunking ou embedding"] else []
    | none => []
  let recommendations := recsFaith ++ recsRel ++ recsPrec
  String.intercalate " | "
    (if recommendations.isEmpty then ["✅ Sistema funcionando bem - manter configuração atual"]
     else recommendations)

end RAGEvaluationService

/-! ## Interpretation tiers (specification side)

The four ordered tiers the spec describes, with the thresholds it
states; the interpretation theorems connect the source string
functions to this tier structure. -/

inductive Tier where
  | low
  | moderate
  | good
  | excellent
deriving DecidableEq

/-- Position of a tier in the spec's order, for monotonicity. -/
def Tier.rank : Tier → Nat
  | .low => 0
  | .moderate => 1
  | .good => 2
  | .excellent => 3

/-- Tier of a score under the spec's fixed thresholds. -/
def tierOf (score : ℚ) : Tier :=
  if score ≥ 0.8 then .excellent
  else if score ≥ 0.6 then .good
  else if score ≥ 0.4 then .moderate
  else .low

/-- The source's interpretation string for a metric at a tier. -/
def tierMessage (metric : String) (t : Tier) : String :=
  if metric = "faithfulness" then
    match t with
    | .excellent => "Excelente fidelidade - resposta baseada nos documentos"
    | .good => "Boa fidelidade - resposta majoritariamente baseada nos documentos"
    | .moderate => "Fidelidade moderada - resposta parcialmente baseada nos documentos"
    | .low => "Baixa fidelidade - resposta pode conter informações não encontradas nos documentos"
  else if metric = "answer_relevancy" then
    match t with
    | .excellent => "Excelente relevância - resposta diretamente relacionada à pergunta"
    | .good => "Boa relevância - resposta relacionada à pergunta"
    | .moderate => "Relevância moderada - resposta parcialmente relacionada"
    | .low => "Baixa relevância - resposta pode não estar relacionada à pergunta"
  else if metric = "context_precision" then
    match t with
    | .excellent => "Excelente precisão - contexts muito relevantes"
    | .good => "Boa precisão - contexts relevantes"
    | .moderate => "Precisão moderada - alguns contexts relevantes"
    | .low => "Baixa precisão - poucos contexts relevantes"
  else ""

/-! ## Concrete fixtures used by witnesses and counterexamples -/

/-- One retrieved chunk with provenance metadata. -/
def docA : Document := ⟨"conteudo do documento", some ⟨some "docs/a.pdf", some 0⟩⟩

/-- Environment whose retriever returns the single document docA
and whose model answers with the plain string abc. -/
def envOneDoc : RAGEnv :=
  ⟨fun _ => .ok (.docs [docA]), fun _ => .ok (.str "abc"), fun _ => ""⟩

/-- The citation the specification describes for docA as the first
source of an answer: created right after a counter reset, with an
excerpt of the first 200 characters of the document. -/
def citA : Citation :=
  (CitationService.create_citation CitationService.reset_counter docA
    (String.mk (docA.page_content.data.take 200))).1

/-- Environment whose retrieval succeeds with no documents and
whose model invocation raises an exception with message boom. -/
def envLlmBoom : RAGEnv :=
  ⟨fun _ => .ok (.docs []), fun _ => .error "boom", fun _ => ""⟩

/-- Environment whose retrieval raises an exception. -/
def envRetrErr : RAGEnv :=
  ⟨fun _ => .error "indice indisponivel", fun _ => .ok (.str "x"), fun _ => ""⟩

/-- Backend that always reports the same numeric raw score. -/
def constBackend (q : ℚ) : MetricBackend := fun _ _ => RawScore.val q

/-- Backend whose every call raises inside the metric try block. -/
def errBackend : MetricBackend := fun _ _ => RawScore.err

/-- RAG data passing every validation: a ten-character answer and
one context of eleven characters. -/
def rdGood : RagData := ⟨"0123456789", ["01234567890"]⟩

/-- RAG data whose stripped answer has only two characters. -/
def rdShort : RagData := ⟨"oi", ["01234567890"]⟩

/-! ## Sanity checks of the embedding on concrete values -/

example : RAGService.extractText (fun _ => "")
    (.dict [("result", .dict [("result", .str "x")])]) = .str "x" := by
  simp [RAGService.extractText, lookupKey]

example : RAGService.extractText (fun _ => "") (.dict [("answer", .str "y")]) = .str "y" := by
  simp [RAGService.extractText, lookupKey, dictFallback]

example : pyStrip "  oi  " = "oi" := by decide

example : CitationService.extract_filename docA = "a.pdf" := by decide

example : RAGService.numberedContext [docA] = "[1] conteudo do documento\n\n" := by decide

/-! ## Claim C9: shared extraction priority plus recursive result unwrap -/

/-- C9: for every model response that is not a dict containing the
result key, RAGService._extract_text and LLMService._extract_text
return the same value (same priority order: plain string, content
attribute, dict keys answer, content, text, string conversion);
and on a dict of shape result maps to x, RAGService._extract_text
returns the extraction of x, recursively through nested result
wrappings. -/
theorem C9_extract_text_equiv (pystr : PyVal → String) :
    (∀ v : PyVal, (∀ es, v = PyVal.dict es → lookupKey es "result" = none) →
      RAGService.extractText pystr v = LLMService.extractText pystr v) ∧
    (∀ x : PyVal, RAGService.extractText pystr (PyVal.dict [("result", x)]) =
      RAGService.extractText pystr x) := by
  constructor
  · intro v hv
    cases v with
    | str s => simp [RAGService.extractText, LLMService.extractText]
    | aiMessage c => simp [RAGService.extractText, LLMService.extractText]
    | dict es =>
      have h := hv es rfl
      simp only [RAGService.extractText, LLMService.extractText]
      split
      · rename_i v hsome
        rw [h] at hsome
        cases hsome
      · rfl
    | other r => simp [RAGService.extractText, LLMService.extractText]
  · intro x
    simp [RAGService.extractText, lookupKey]

/-- Witness for C9 at a concrete dict without a result key and at
a concrete result wrapper. -/
theorem C9_extract_text_equiv_witness :
    RAGService.extractText (fun _ => "obj") (PyVal.dict [("answer", PyVal.str "resp")]) =
      LLMService.extractText (fun _ => "obj") (PyVal.dict [("answer", PyVal.str "resp")]) ∧
    RAGService.extractText (fun _ => "obj") (PyVal.dict [("result", PyVal.str "resp")]) =
      RAGService.extractText (fun _ => "obj") (PyVal.str "resp") :=
  ⟨(C9_extract_text_equiv _).1 _ (by intro es h; cases h; rfl),
   (C9_extract_text_equiv _).2 _⟩

/-! ## Claim C5: sequential citation numbering -/

/-- Citation numbers produced by a run of create_citation calls
starting from counter state k are k+1, k+2, ... in call order. -/
theorem create_citations_map_number (items : List (Document × String)) :
    ∀ k : Nat, (CitationService.create_citations k items).1.map Citation.number =
      List.range' (k + 1) items.length := by
  induction items with
  | nil => intro k; simp [CitationService.create_citations]
  | cons p rest ih =>
    intro k
    obtain ⟨d, c⟩ := p
    simp [CitationService.create_citations, CitationService.create_citation,
      List.range'_succ, ih (k + 1)]

/-- C5: after a counter reset, N create_citation calls in order
yield citations numbered exactly 1..N (in call order, with no gaps
or repeats), and the first citation created after any reset is
numbered 1. -/
theorem C5_citation_numbering (items : List (Document × String)) :
    ((CitationService.create_citations CitationService.reset_counter items).1.map
        Citation.number = List.range' 1 items.length) ∧
    ((CitationService.create_citations CitationService.reset_counter items).1.map
        Citation.number).Nodup ∧
    (∀ d chunk,
      ((CitationService.create_citation CitationService.reset_counter d chunk).1).number = 1) := by
  have h := create_citations_map_number items 0
  refine ⟨h, ?_, fun d chunk => rfl⟩
  show (List.map Citation.number (CitationService.create_citations 0 items).1).Nodup
  rw [h]
  exact List.nodup_range' _ _

/-! ## Claim C6: citation marker placement -/

/-- C6: with an empty citation list the answer is returned
unchanged together with the fixed no-sources marker; with a
non-empty list the bracketed markers are inserted before a
trailing period when the answer ends in one, and otherwise
appended after a single space. -/
theorem C6_format_response (response : String) (cs : List Citation) (hcs : cs ≠ []) :
    CitationService.format_response_with_citations response [] =
      (response, "Nenhuma fonte utilizada.") ∧
    (CitationService.format_response_with_citations response cs).1 =
      (let markers := String.intercalate " " (cs.map (fun c => "[" ++ toString c.number ++ "]"))
       if endsWithChar '.' response then dropLastChar response ++ " " ++ markers ++ "."
       else response ++ " " ++ markers) := by
  refine ⟨rfl, ?_⟩
  match cs, hcs with
  | c :: rest, _ =>
    simp only [CitationService.format_response_with_citations,
      CitationService.add_citation_markers, List.isEmpty_cons, List.map_cons,
      Bool.false_eq_true, if_false]
    split <;> simp [String.append_assoc]

/-- Witness for C6: an answer ending in a period and one citation. -/
theorem C6_format_response_witness :
    CitationService.format_response_with_citations "abc." [] =
      ("abc.", "Nenhuma fonte utilizada.") ∧
    (CitationService.format_response_with_citations "abc." [⟨1, "a.pdf", 1, "x"⟩]).1 =
      (let markers := String.intercalate " "
        ([⟨1, "a.pdf", 1, "x"⟩].map (fun c => "[" ++ toString (Citation.number c) ++ "]"))
       if endsWithChar '.' "abc." then dropLastChar "abc." ++ " " ++ markers ++ "."
       else "abc." ++ " " ++ markers) :=
  C6_format_response "abc." [⟨1, "a.pdf", 1, "x"⟩] (List.cons_ne_nil _ _)

/-! ## Claim C10: citation summary shape -/

/-- C10: the summary of an empty citation list is exactly
total_sources 0 with an empty files list and no total_files key;
for a non-empty list, total_sources is the list length, files are
the distinct filenames, and total_files is present and counts
them. -/
theorem C10_citation_summary (cs : List Citation) (hcs : cs ≠ []) :
    CitationService.get_citation_summary [] =
      { total_sources := 0, files := [], total_files := none } ∧
    (CitationService.get_citation_summary cs).total_sources = cs.length ∧
    (CitationService.get_citation_summary cs).files.Nodup ∧
    (∀ f, f ∈ (CitationService.get_citation_summary cs).files ↔ f ∈ cs.map Citation.filename) ∧
    (CitationService.get_citation_summary cs).total_files =
      some (CitationService.get_citation_summary cs).files.length := by
  have hne : cs.isEmpty = false := by
    cases cs with
    | nil => exact absurd rfl hcs
    | cons c rest => rfl
  refine ⟨rfl, ?_, ?_, ?_, ?_⟩ <;>
    simp [CitationService.get_citation_summary, hne, List.nodup_dedup, List.mem_dedup]

/-- Witness for C10 at a concrete two-citation list sharing one
filename. -/
theorem C10_citation_summary_witness :
    CitationService.get_citation_summary [] =
      { total_sources := 0, files := [], total_files := none } ∧
    (CitationService.get_citation_summary [⟨1, "a.pdf", 1, "x"⟩, ⟨2, "a.pdf", 2, "y"⟩]).total_sources =
      [Citation.mk 1 "a.pdf" 1 "x", Citation.mk 2 "a.pdf" 2 "y"].length ∧
    (CitationService.get_citation_summary [⟨1, "a.pdf", 1, "x"⟩, ⟨2, "a.pdf", 2, "y"⟩]).files.Nodup ∧
    (∀ f, f ∈ (CitationService.get_citation_summary
        [⟨1, "a.pdf", 1, "x"⟩, ⟨2, "a.pdf", 2, "y"⟩]).files ↔
      f ∈ [Citation.mk 1 "a.pdf" 1 "x", Citation.mk 2 "a.pdf" 2 "y"].map Citation.filename) ∧
    (CitationService.get_citation_summary [⟨1, "a.pdf", 1, "x"⟩, ⟨2, "a.pdf", 2, "y"⟩]).total_files =
      some (CitationService.get_citation_summary
        [⟨1, "a.pdf", 1, "x"⟩, ⟨2, "a.pdf", 2, "y"⟩]).files.length :=
  C10_citation_summary [⟨1, "a.pdf", 1, "x"⟩, ⟨2, "a.pdf", 2, "y"⟩] (List.cons_ne_nil _ _)

/-! ## Claim C7: interpretation tiers -/

/-- C7: for each requested metric the source interpretation equals
the fixed message of exactly one of the four tiers selected by the
thresholds 0.8, 0.6, 0.4 (so the bucketing is exhaustive), and the
tier is non-decreasing in the score. -/
theorem C7_interpretation_tiers (m : String) (hm : m ∈ RAGEvaluationService.metricNames)
    (s t : ℚ) (hst : s ≤ t) :
    RAGEvaluationService.interpretRagScores [(m, s)] = [(m, tierMessage m (tierOf s))] ∧
    (tierOf s).rank ≤ (tierOf t).rank := by
  constructor
  · have hm3 : m = "faithfulness" ∨ m = "answer_relevancy" ∨ m = "context_precision" := by
      simpa [RAGEvaluationService.metricNames] using hm
    rcases hm3 with rfl | rfl | rfl <;>
      · simp only [RAGEvaluationService.interpretRagScores, List.foldl]
        simp only [RAGEvaluationService.interpretFaithfulness,
          RAGEvaluationService.interpretRelevancy, RAGEvaluationService.interpretPrecision,
          tierMessage, tierOf]
        split_ifs <;> simp
  · unfold tierOf
    split_ifs <;> simp [Tier.rank] <;> linarith

/-- Witness for C7 at the faithfulness metric with scores 0 and 1. -/
theorem C7_interpretation_tiers_witness :
    RAGEvaluationService.interpretRagScores [("faithfulness", (0 : ℚ))] =
      [("faithfulness", tierMessage "faithfulness" (tierOf 0))] ∧
    (tierOf (0 : ℚ)).rank ≤ (tierOf (1 : ℚ)).rank :=
  C7_interpretation_tiers "faithfulness" (by simp [RAGEvaluationService.metricNames]) 0 1
    (by norm_num)

/-! ## Claim C8: recommendation rules -/

/-- C8: when all referenced metrics are present,
_generate_recommendation is the join of the four independent rule
checks in the fixed order faithfulness, RAG relevancy,
retrieval-gap, precision, and the single performing-well message
when no rule fires. -/
theorem C8_recommendation_rules (rag llm : List (String × ℚ)) (f rr lr p : ℚ)
    (hf : rag.lookup "faithfulness" = some f)
    (hrr : rag.lookup "answer_relevancy" = some rr)
    (hlr : llm.lookup "answer_relevancy" = some lr)
    (hp : rag.lookup "context_precision" = some p) :
    RAGEvaluationService.generateRecommendation rag llm =
      (let recs :=
        (if f < 0.6 then ["⚠️ Melhorar qualidade dos documentos ou ajustar chunking"] else []) ++
        (if rr < 0.6 then ["📝 Melhorar prompt ou ajustar retriever"] else []) ++
        (if lr > rr + 0.2 then ["🔍 Considerar melhorar estratégia de retrieval"] else []) ++
        (if p < 0.6 then ["🎯 Ajustar estratégia de chunking ou embedding"] else [])
       if recs = [] then "✅ Sistema funcionando bem - manter configuração atual"
       else String.intercalate " | " recs) := by
  unfold RAGEvaluationService.generateRecommendation
  rw [hf, hrr, hlr, hp]
  by_cases c1 : f < 0.6 <;> by_cases c2 : rr < 0.6 <;> by_cases c3 : lr > rr + 0.2 <;>
    by_cases c4 : p < 0.6 <;>
    simp [c1, c2, c3, c4, String.intercalate] <;> rfl

/-- Witness for C8: low faithfulness fires exactly the first rule. -/
theorem C8_recommendation_rules_witness :
    RAGEvaluationService.generateRecommendation
        [("faithfulness", (1 : ℚ)/2), ("answer_relevancy", (9 : ℚ)/10),
          ("context_precision", (9 : ℚ)/10)]
        [("answer_relevancy", (1 : ℚ)/2)] =
      (let recs :=
        (if (1 : ℚ)/2 < 0.6 then ["⚠️ Melhorar qualidade dos documentos ou ajustar chunking"] else []) ++
        (if (9 : ℚ)/10 < 0.6 then ["📝 Melhorar prompt ou ajustar retriever"] else []) ++
        (if (1 : ℚ)/2 > (9 : ℚ)/10 + 0.2 then ["🔍 Considerar melhorar estratégia de retrieval"] else []) ++
        (if (9 : ℚ)/10 < 0.6 then ["🎯 Ajustar estratégia de chunking ou embedding"] else [])
       if recs = [] then "✅ Sistema funcionando bem - manter configuração atual"
       else String.intercalate " | " recs) :=
  C8_recommendation_rules
    [("faithfulness", (1 : ℚ)/2), ("answer_relevancy", (9 : ℚ)/10),
      ("context_precision", (9 : ℚ)/10)]
    [("answer_relevancy", (1 : ℚ)/2)] ((1 : ℚ)/2) ((9 : ℚ)/10) ((1 : ℚ)/2) ((9 : ℚ)/10)
    (by simp [List.lookup]) (by simp [List.lookup]) (by simp [List.lookup])
    (by simp [List.lookup])

/-! ## Claim C4: degenerate inputs short-circuit to zero scores -/

/-- A RAG scoring pass whose stripped answer is under 10
characters, or whose evidence list is empty once documents with
stripped content under 10 characters are removed, reduces to the
all-zero scores for any backend. -/
theorem evaluateRag_degenerate (backend : MetricBackend) (question : String)
    (rag_data : RagData)
    (h : (pyStrip rag_data.answer).length < 10 ∨
      rag_data.contexts.filter (fun ctx => 10 ≤ (pyStrip ctx).length) = []) :
    RAGEvaluationService.evaluateRagResponse backend question rag_data =
      RAGEvaluationService.zeroScores := by
  unfold RAGEvaluationService.evaluateRagResponse
  by_cases h1 : pyStrip rag_data.answer = "" ∨ (pyStrip rag_data.answer).length < 10
  · simp only [if_pos h1]
  · rcases h with h | h
    · exact absurd (Or.inr h) h1
    · simp only [if_neg h1]
      by_cases h2 : rag_data.contexts.isEmpty = true
      · simp only [if_pos h2]
      · have hall : ∀ c ∈ rag_data.contexts, ¬ (10 ≤ (pyStrip c).length) := by
          intro c hc
          have := List.filter_eq_nil_iff.mp h c hc
          simpa using this
        have hcode : rag_data.contexts.filter
            (fun ctx => decide (ctx ≠ "" ∧ 10 < (pyStrip ctx).length)) = [] := by
          apply List.filter_eq_nil_iff.mpr
          intro c hc
          simp only [decide_eq_true_eq, not_and]
          intro _ hlt
          exact hall c hc (le_of_lt hlt)
        simp only [if_neg h2, hcode, List.map_nil, List.isEmpty_nil, if_true]

/-- An LLM scoring pass whose stripped answer is under 10
characters reduces to the zero relevancy score for any backend. -/
theorem evaluateLlm_degenerate (backend : MetricBackend) (question llm_answer : String)
    (h : (pyStrip llm_answer).length < 10) :
    RAGEvaluationService.evaluateLlmResponse backend question llm_answer =
      [("answer_relevancy", 0)] := by
  unfold RAGEvaluationService.evaluateLlmResponse
  simp only [if_pos (Or.inr h)]

/-- C4: a stripped answer under 10 characters, or an evidence list
empty after removing documents whose stripped content is under 10
characters, makes the scoring pass return 0.0 for every requested
metric, and the result does not depend on the metric backend (the
backend is not consulted). -/
theorem C4_degenerate_short_circuit (b1 b2 : MetricBackend) (question : String)
    (rag_data : RagData) (llm_answer : String) :
    (((pyStrip rag_data.answer).length < 10 ∨
        rag_data.contexts.filter (fun ctx => 10 ≤ (pyStrip ctx).length) = []) →
      RAGEvaluationService.evaluateRagResponse b1 question rag_data =
          RAGEvaluationService.zeroScores ∧
        RAGEvaluationService.evaluateRagResponse b1 question rag_data =
          RAGEvaluationService.evaluateRagResponse b2 question rag_data) ∧
    ((pyStrip llm_answer).length < 10 →
      RAGEvaluationService.evaluateLlmResponse b1 question llm_answer =
          [("answer_relevancy", 0)] ∧
        RAGEvaluationService.evaluateLlmResponse b1 question llm_answer =
          RAGEvaluationService.evaluateLlmResponse b2 question llm_answer) := by
  constructor
  · intro h
    refine ⟨evaluateRag_degenerate b1 question rag_data h, ?_⟩
    rw [evaluateRag_degenerate b1 question rag_data h,
      evaluateRag_degenerate b2 question rag_data h]
  · intro h
    refine ⟨evaluateLlm_degenerate b1 question llm_answer h, ?_⟩
    rw [evaluateLlm_degenerate b1 question llm_answer h,
      evaluateLlm_degenerate b2 question llm_answer h]

/-- Witness for C4: a two-character answer short-circuits the RAG
and the LLM scoring passes for a backend reporting 1.0 everywhere. -/
theorem C4_degenerate_short_circuit_witness :
    (RAGEvaluationService.evaluateRagResponse (constBackend 1) "q" rdShort =
        RAGEvaluationService.zeroScores ∧
      RAGEvaluationService.evaluateRagResponse (constBackend 1) "q" rdShort =
        RAGEvaluationService.evaluateRagResponse errBackend "q" rdShort) ∧
    (RAGEvaluationService.evaluateLlmResponse (constBackend 1) "q" "oi" =
        [("answer_relevancy", 0)] ∧
      RAGEvaluationService.evaluateLlmResponse (constBackend 1) "q" "oi" =
        RAGEvaluationService.evaluateLlmResponse errBackend "q" "oi") :=
  ⟨(C4_degenerate_short_circuit (constBackend 1) errBackend "q" rdShort "oi").1
      (Or.inl (by decide)),
   (C4_degenerate_short_circuit (constBackend 1) errBackend "q" rdShort "oi").2 (by decide)⟩

/-! ## Claim C3: ScoreSet contents -/

/-- The validity coercion never produces a negative score. -/
theorem coerceScore_nonneg (r : RawScore) : 0 ≤ RAGEvaluationService.coerceScore r := by
  cases r with
  | val q =>
    simp only [RAGEvaluationService.coerceScore]
    split_ifs with h
    · exact h
    · exact le_refl 0
  | nan => exact le_refl 0
  | noneVal => exact le_refl 0
  | missing => exact le_refl 0
  | err => exact le_refl 0

/-- The validity coercion stays at or below 1 whenever the raw
numeric values do. -/
theorem coerceScore_le_one {r : RawScore} (h : ∀ q, r = RawScore.val q → q ≤ 1) :
    RAGEvaluationService.coerceScore r ≤ 1 := by
  cases r with
  | val q =>
    simp only [RAGEvaluationService.coerceScore]
    split_ifs
    · exact h q rfl
    · norm_num
  | nan => norm_num [RAGEvaluationService.coerceScore]
  | noneVal => norm_num [RAGEvaluationService.coerceScore]
  | missing => norm_num [RAGEvaluationService.coerceScore]
  | err => norm_num [RAGEvaluationService.coerceScore]

/-- The ensure-all loop appends nothing when the three requested
metrics are already present. -/
theorem ensureAllMetrics_complete (ar fa cp : ℚ) :
    RAGEvaluationService.ensureAllMetrics
        [("answer_relevancy", ar), ("faithfulness", fa), ("context_precision", cp)] =
      [("answer_relevancy", ar), ("faithfulness", fa), ("context_precision", cp)] := by
  simp [RAGEvaluationService.ensureAllMetrics, RAGEvaluationService.metricNames, List.lookup]

/-- Lookups on a fully populated three-metric score list. -/
theorem lookup_scores_triple (ar fa cp : ℚ) :
    (List.lookup "answer_relevancy"
        [("answer_relevancy", ar), ("faithfulness", fa), ("context_precision", cp)] = some ar) ∧
    (List.lookup "faithfulness"
        [("answer_relevancy", ar), ("faithfulness", fa), ("context_precision", cp)] = some fa) ∧
    (List.lookup "context_precision"
        [("answer_relevancy", ar), ("faithfulness", fa), ("context_precision", cp)] = some cp) := by
  refine ⟨?_, ?_, ?_⟩ <;> simp [List.lookup]

/-- C3 counterexample: a backend raw score of 2.0 is accepted
unclamped (it is numeric and non-negative), so the RAG ScoreSet
maps answer_relevancy to 2.0, outside the unit interval the claim
promises. -/
theorem C3_counterexample :
    (RAGEvaluationService.evaluateRagResponse (constBackend 2) "pergunta" rdGood).lookup
        "answer_relevancy" = some 2 ∧
    ¬ ((2 : ℚ) ≤ 1) := by
  constructor
  · rfl
  · norm_num

/-- C3 amended: every requested metric name is present in the
result with a non-negative value — a NaN or negative raw value is
coerced to 0.0 — and the values stay within the unit interval
provided the backend's numeric raw scores do (the code has no
upper clamp of its own). -/
theorem C3_scoreset_amended (backend : MetricBackend) (question llm_answer : String)
    (rag_data : RagData)
    (hb : ∀ m d q, backend m d = RawScore.val q → q ≤ 1) :
    (∀ m ∈ RAGEvaluationService.metricNames, ∃ q,
      (RAGEvaluationService.evaluateRagResponse backend question rag_data).lookup m = some q ∧
        0 ≤ q ∧ q ≤ 1) ∧
    (∃ q, (RAGEvaluationService.evaluateLlmResponse backend question llm_answer).lookup
        "answer_relevancy" = some q ∧ 0 ≤ q ∧ q ≤ 1) ∧
    RAGEvaluationService.coerceScore RawScore.nan = 0 ∧
    (∀ q : ℚ, q < 0 → RAGEvaluationService.coerceScore (RawScore.val q) = 0) := by
  refine ⟨?_, ?_, rfl, ?_⟩
  · intro m hm
    have hm3 : m = "faithfulness" ∨ m = "answer_relevancy" ∨ m = "context_precision" := by
      simpa [RAGEvaluationService.metricNames] using hm
    have hzero : ∀ m2, m2 = "faithfulness" ∨ m2 = "answer_relevancy" ∨
        m2 = "context_precision" → ∃ q,
        RAGEvaluationService.zeroScores.lookup m2 = some q ∧ 0 ≤ q ∧ q ≤ 1 := by
      intro m2 hm2
      rcases hm2 with rfl | rfl | rfl <;>
        exact ⟨0, by simp [RAGEvaluationService.zeroScores, RAGEvaluationService.metricNames,
          List.lookup], le_refl 0, by norm_num⟩
    simp only [RAGEvaluationService.evaluateRagResponse]
    split_ifs with h1 h2 h3
    · exact hzero m hm3
    · exact hzero m hm3
    · exact hzero m hm3
    · rw [ensureAllMetrics_complete]
      rcases hm3 with rfl | rfl | rfl
      · exact ⟨_, (lookup_scores_triple _ _ _).2.1, coerceScore_nonneg _,
          coerceScore_le_one (fun q hq => hb _ _ q hq)⟩
      · exact ⟨_, (lookup_scores_triple _ _ _).1, coerceScore_nonneg _,
          coerceScore_le_one (fun q hq => hb _ _ q hq)⟩
      · exact ⟨_, (lookup_scores_triple _ _ _).2.2, coerceScore_nonneg _,
          coerceScore_le_one (fun q hq => hb _ _ q hq)⟩
  · simp only [RAGEvaluationService.evaluateLlmResponse]
    split_ifs with h1
    · exact ⟨0, rfl, le_refl 0, by norm_num⟩
    · exact ⟨_, rfl, coerceScore_nonneg _,
        coerceScore_le_one (fun q hq => hb _ _ q hq)⟩
  · intro q hq
    simp [RAGEvaluationService.coerceScore, not_le.mpr hq]

/-- Witness for C3 amended at a backend reporting 1.0 for every
metric on valid input. -/
theorem C3_scoreset_amended_witness :
    (∀ m ∈ RAGEvaluationService.metricNames, ∃ q,
      (RAGEvaluationService.evaluateRagResponse (constBackend 1) "q" rdGood).lookup m = some q ∧
        0 ≤ q ∧ q ≤ 1) ∧
    (∃ q, (RAGEvaluationService.evaluateLlmResponse (constBackend 1) "q"
        "resposta suficientemente longa").lookup "answer_relevancy" = some q ∧ 0 ≤ q ∧ q ≤ 1) ∧
    RAGEvaluationService.coerceScore RawScore.nan = 0 ∧
    (∀ q : ℚ, q < 0 → RAGEvaluationService.coerceScore (RawScore.val q) = 0) :=
  C3_scoreset_amended (constBackend 1) "q" "resposta suficientemente longa" rdGood
    (by intro m d q hq; cases hq; exact le_refl 1)

/-! ## Claim C2: exception policy of the answer paths -/

/-- The shared except block always produces an ok value. -/
theorem absorb_isOk (res : Except String PyVal) :
    ∃ a, RAGService.absorb res = Except.ok a := by
  cases res with
  | ok a => exact ⟨a, rfl⟩
  | error e => exact ⟨PyVal.str ("Erro ao processar pergunta: " ++ e), rfl⟩

/-- C2 counterexample: with a model invocation that raises with
message boom, answer_question returns the visible error string as
an ok value instead of re-raising the exception to its caller. -/
theorem C2_counterexample :
    RAGService.answer_question envLlmBoom "pergunta" =
      Except.ok (PyVal.str "Erro ao processar pergunta: boom") := rfl

/-- C2 amended: both answer_question and answer_question_simple
absorb any exception raised during retrieval or generation into
the visible error string returned to the caller; in particular a
retrieval exception with message e makes both methods return the
ok string Erro ao processar pergunta: e, and no environment makes
either method propagate an exception. -/
theorem C2_error_absorption (env : RAGEnv) (question e : String)
    (h : env.retrieve question = Except.error e) :
    RAGService.answer_question env question =
        Except.ok (PyVal.str ("Erro ao processar pergunta: " ++ e)) ∧
    RAGService.answer_question_simple env question =
        Except.ok (PyVal.str ("Erro ao processar pergunta: " ++ e)) ∧
    (∀ (env2 : RAGEnv) (q2 : String),
      (∃ a, RAGService.answer_question env2 q2 = Except.ok a) ∧
      (∃ a, RAGService.answer_question_simple env2 q2 = Except.ok a)) := by
  refine ⟨?_, ?_, ?_⟩
  · unfold RAGService.answer_question
    rw [h]
    rfl
  · unfold RAGService.answer_question_simple
    rw [h]
    rfl
  · intro env2 q2
    exact ⟨absorb_isOk _, absorb_isOk _⟩

/-- Witness for C2 amended at an environment whose retrieval
raises. -/
theorem C2_error_absorption_witness :
    RAGService.answer_question envRetrErr "pergunta" =
        Except.ok (PyVal.str ("Erro ao processar pergunta: " ++ "indice indisponivel")) ∧
    RAGService.answer_question_simple envRetrErr "pergunta" =
        Except.ok (PyVal.str ("Erro ao processar pergunta: " ++ "indice indisponivel")) ∧
    (∀ (env2 : RAGEnv) (q2 : String),
      (∃ a, RAGService.answer_question env2 q2 = Except.ok a) ∧
      (∃ a, RAGService.answer_question_simple env2 q2 = Except.ok a)) :=
  C2_error_absorption envRetrErr "pergunta" "indice indisponivel" rfl

/-! ## Claim C1: what the cited mode actually returns -/

/-- C1 counterexample: for a concrete environment with one
retrieved document and plain model text abc, answer_question
returns exactly the model text; the CitationService formatting the
claim describes would instead produce the answer abc [1] (and a
source list), which differs. -/
theorem C1_counterexample :
    RAGService.answer_question envOneDoc "pergunta" = Except.ok (PyVal.str "abc") ∧
    (CitationService.format_response_with_citations "abc" [citA]).1 = "abc [1]" ∧
    ("abc" : String) ≠ "abc [1]" := by
  refine ⟨?_, rfl, by decide⟩
  have hx : RAGService.extractText envOneDoc.pystr (PyVal.str "abc") = PyVal.str "abc" := by
    simp [RAGService.extractText]
  calc RAGService.answer_question envOneDoc "pergunta"
      = Except.ok (RAGService.extractText envOneDoc.pystr (PyVal.str "abc")) := rfl
    _ = Except.ok (PyVal.str "abc") := by rw [hx]

/-- C1 amended: whenever retrieval returns a document list and the
model call on the cited prompt over the numbered context returns a
response, answer_question returns exactly the extracted response
text as a plain string: it performs no counter reset, builds no
Citation values, applies no CitationService formatting, and
attaches no source or metadata structure. -/
theorem C1_cited_mode_plain_text (env : RAGEnv) (question : String)
    (ds : List Document) (raw : PyVal)
    (h1 : env.retrieve question = Except.ok (RetrieverResult.docs ds))
    (h2 : env.llmInvoke (RAGService.citedPrompt (RAGService.numberedContext ds) question) =
      Except.ok raw) :
    RAGService.answer_question env question =
      Except.ok (RAGService.extractText env.pystr raw) := by
  unfold RAGService.answer_question
  rw [h1]
  show RAGService.absorb
      (match env.llmInvoke (RAGService.citedPrompt (RAGService.numberedContext ds) question) with
       | Except.error e => Except.error e
       | Except.ok raw => Except.ok (RAGService.extractText env.pystr raw)) =
    Except.ok (RAGService.extractText env.pystr raw)
  rw [h2]
  rfl

/-- Witness for C1 amended at the concrete one-document
environment. -/
theorem C1_cited_mode_plain_text_witness :
    RAGService.answer_question envOneDoc "pergunta" =
      Except.ok (RAGService.extractText envOneDoc.pystr (PyVal.str "abc")) :=
  C1_cited_mode_plain_text envOneDoc "pergunta" [docA] (PyVal.str "abc") rfl rfl

end RagComparator
